import Mathlib

/-!
Verification development for the `wgsl_to_wgpu` code generator
(`src/wgsl_to_wgpu/src/lib.rs`).

The development is a shallow embedding of the generator.  The parsed shader
IR produced by the external `naga` front end is modelled by `NagaModule`,
at exactly the granularity the generator inspects.  The functions of
`lib.rs` (`create_shader_module`, `write_structs`, `write_bind_groups_module`,
`write_set_bind_groups`, `write_vertex_input_structs`,
`write_bind_group_layout`, `write_bind_group_layout_descriptor`,
`write_bind_group_layout_entry`, `impl_bind_group`, `indent`) are translated
directly from the source.  The helper module `wgsl` (not part of the given
sources; only its callers and the crate tests are) is modelled from the
specification where noted.

Rust `panic!`/`todo!`/`unwrap` failures are modelled by `Option` (with
`none` denoting a panic) inside the emitters, and by the `GenResult.panic`
outcome at the top level, so that a panic is distinguishable from the
structured `CreateModuleError` results.
-/

set_option maxRecDepth 100000

namespace WgslToWgpu

/-- Scalar kind of the naga IR (`naga::ScalarKind`). -/
inductive ScalarKind where
  | sint
  | uint
  | float
  | bool
deriving DecidableEq

/-- A naga scalar: a kind together with a byte width (`width` in naga). -/
structure Scalar where
  kind : ScalarKind
  width : Nat
deriving DecidableEq

/-- Image dimension (`naga::ImageDimension`). -/
inductive ImageDimension where
  | d1
  | d2
  | d3
  | cube
deriving DecidableEq

/-- Image class (`naga::ImageClass`): sampled, depth, or storage images. -/
inductive ImageClass where
  | sampled (multi : Bool)
  | depth (multi : Bool)
  | storage
deriving DecidableEq

/-- Access mode of a storage buffer (`naga::StorageAccess`). -/
inductive StorageAccess where
  | read
  | readWrite
  | other
deriving DecidableEq

/-- Storage class of a global variable (`naga::StorageClass`). -/
inductive StorageClass where
  | uniform
  | storage (access : StorageAccess)
  | handle
  | other
deriving DecidableEq

/-- The type description of the naga IR (`naga::TypeInner`), restricted to
the shapes the generator distinguishes; `otherType` stands for every
remaining `naga::TypeInner` constructor, all of which the generator treats
alike (they fall into its catch-all match arms). -/
inductive WgslType where
  | scalar (s : Scalar)
  | vector (size : Nat) (s : Scalar)
  | matrix (columns rows : Nat) (s : Scalar)
  | array (elem : WgslType) (len : Nat)
  | structType (name : Option String) (members : List (Option String × WgslType))
  | image (dim : ImageDimension) (cls : ImageClass)
  | sampler (comparison : Bool)
  | otherType

/-- A global variable of the naga IR, keeping the fields the generator
reads: its name, its optional `(group, binding)` resource attribute, its
storage class and its type. -/
structure GlobalVariable where
  name : Option String
  binding : Option (Nat × Nat)
  storage_class : StorageClass
  ty : WgslType

/-- A shader entry-point stage (`naga::ShaderStage`). -/
inductive Stage where
  | vertex
  | fragment
  | compute
deriving DecidableEq

/-- Modelled from the spec: the output of `wgsl::get_vertex_input_structs`
(code not included in the given sources).  A vertex-input struct is a
struct name together with the ordered `(attribute-location, field-type)`
pairs of its members, in member declaration order. -/
structure VertexInput where
  name : String
  fields : List (Nat × WgslType)

/-- The parsed shader module (`naga::Module`), at the granularity the
generator uses: the type arena in declaration order, the global variables in
declaration order, the stages of the entry points in declaration order, and
the vertex-input structs (the latter modelled from the spec as the output of
the missing IR-adapter function `wgsl::get_vertex_input_structs`). -/
structure NagaModule where
  types : List WgslType
  globals : List GlobalVariable
  entryStages : List Stage
  vertexInputs : List VertexInput

/-- `CreateModuleError` from `lib.rs`: the only structured errors of the
generator.  `NonConsecutiveBindGroups`: bind group sets must be consecutive
and start from 0.  `DuplicateBinding`: each binding resource must be
associated with exactly one binding index. -/
inductive CreateModuleError where
  | NonConsecutiveBindGroups
  | DuplicateBinding (binding : Nat)
deriving DecidableEq

/-- The observable outcome of `create_shader_module`: the generated source
text, a structured error, or a Rust panic (`unwrap`, `panic!` or `todo!`). -/
inductive GenResult where
  | ok (text : String)
  | err (e : CreateModuleError)
  | panic
deriving DecidableEq

/-- `GenResult.isErr` holds exactly on structured (typed) errors. -/
def GenResult.isErr : GenResult → Bool
  | .err _ => true
  | _ => false

/-- One resource binding of a bind group (`wgsl::GroupBinding`, whose shape
is pinned by its uses in `lib.rs`): name, binding index, type and storage
class of the underlying global variable. -/
structure GroupBinding where
  name : Option String
  binding_index : Nat
  binding_type : WgslType
  storage_class : StorageClass

/-- Sequential effectful map over `Option`: the model of a Rust loop that
aborts on the first panic.  `none` as soon as `f` fails on some element. -/
def mapMOpt (f : α → Option β) : List α → Option (List β)
  | [] => some []
  | a :: l => do
      let b ← f a
      let bs ← mapMOpt f l
      pure (b :: bs)

/-- The `(group, binding)` attribute pairs of the globals that carry one,
in declaration order. -/
def globalPairs (globals : List GlobalVariable) : List (Nat × Nat) :=
  globals.filterMap (·.binding)

/-- Modelled from the spec: the duplicate-binding check of
`wgsl::get_bind_group_data` (code not included in the given sources).
Validation fails fast on the first binding, in declaration order, whose
`(group, binding)` pair occurs again; the offending binding index is
reported. -/
def firstDup : List (Nat × Nat) → Option Nat
  | [] => none
  | p :: rest => if p ∈ rest then some p.2 else firstDup rest

/-- Insert a binding into a group's binding list, ordered ascending by
binding index (spec §4.1: "order bindings by binding index ascending within
each group for deterministic emission"). -/
def insertByIndex (b : GroupBinding) : List GroupBinding → List GroupBinding
  | [] => [b]
  | x :: xs =>
      if b.binding_index < x.binding_index then b :: x :: xs
      else x :: insertByIndex b xs

/-- Insert a binding into the group map, which is kept as an association
list sorted ascending by group index (the model of the `BTreeMap` used by
`wgsl::get_bind_group_data`). -/
def insertBinding (grp : Nat) (b : GroupBinding) :
    List (Nat × List GroupBinding) → List (Nat × List GroupBinding)
  | [] => [(grp, [b])]
  | (k, bs) :: rest =>
      if grp < k then (grp, [b]) :: (k, bs) :: rest
      else if grp = k then (k, insertByIndex b bs) :: rest
      else (k, bs) :: insertBinding grp b rest

/-- Modelled from the spec: the grouping step of
`wgsl::get_bind_group_data` (code not included in the given sources).
Spec §4.1: enumerate every global resource variable carrying a
`(group, binding)` attribute pair, group by group index, order bindings by
binding index ascending within each group.  The result is the `BTreeMap`
from group index to group data, modelled as an association list sorted
ascending by group index. -/
def buildGroups : List GlobalVariable → List (Nat × List GroupBinding)
  | [] => []
  | g :: rest =>
      match g.binding with
      | none => buildGroups rest
      | some (grp, idx) =>
          insertBinding grp ⟨g.name, idx, g.ty, g.storage_class⟩ (buildGroups rest)

/-- Modelled from the spec: `wgsl::get_bind_group_data` (code not included
in the given sources; its observable behaviour is pinned by the crate tests
in `lib.rs` and by spec §4.2).  It fails with `DuplicateBinding` if any
group contains two bindings with the same binding index (this check is
scoped per group and surfaces before the group-consecutiveness check, as
spec §4.2 describes), and with `NonConsecutiveBindGroups` if the sorted
group indices are not exactly `0, 1, …, N-1`. -/
def get_bind_group_data (m : NagaModule) :
    Except CreateModuleError (List (Nat × List GroupBinding)) :=
  match firstDup (globalPairs m.globals) with
  | some b => .error (.DuplicateBinding b)
  | none =>
      let groups := buildGroups m.globals
      if groups.map Prod.fst = List.range groups.length then .ok groups
      else .error .NonConsecutiveBindGroups

/-- The set of shader stages used by a module, as three flags (the model of
`wgpu::ShaderStages`, which is a bitflag set). -/
structure ShaderStages where
  vertex : Bool
  fragment : Bool
  compute : Bool
deriving DecidableEq

/-- `wgpu::ShaderStages::VERTEX`. -/
def stagesVertex : ShaderStages := ⟨true, false, false⟩

/-- `wgpu::ShaderStages::FRAGMENT`. -/
def stagesFragment : ShaderStages := ⟨false, true, false⟩

/-- `wgpu::ShaderStages::VERTEX_FRAGMENT`. -/
def stagesVertexFragment : ShaderStages := ⟨true, true, false⟩

/-- `wgpu::ShaderStages::COMPUTE`. -/
def stagesCompute : ShaderStages := ⟨false, false, true⟩

/-- Modelled from the spec: `wgsl::shader_stages` (code not included in the
given sources).  Spec §4.1: the union, across all entry points discovered in
the shader, of which programmable stages are present. -/
def shader_stages (m : NagaModule) : ShaderStages :=
  m.entryStages.foldl
    (fun acc st =>
      match st with
      | .vertex => { acc with vertex := true }
      | .fragment => { acc with fragment := true }
      | .compute => { acc with compute := true })
    ⟨false, false, false⟩

/-- The space string used by `indent` (`" ".repeat(level)`). -/
def spacesStr (n : Nat) : String :=
  String.mk (List.replicate n ' ')

/-- Split a character list at newline characters, accumulating the current
line in reverse (a structurally recursive equivalent of
`String.splitOn "\n"`). -/
def splitNlAux : List Char → List Char → List String
  | [], acc => [String.mk acc.reverse]
  | c :: cs, acc =>
      if c = '\n' then String.mk acc.reverse :: splitNlAux cs []
      else splitNlAux cs (c :: acc)

/-- The lines of a string, with the semantics of Rust `str::lines`:
split on newlines, with a final trailing newline not producing an extra
empty line. -/
def rustLines (s : String) : List String :=
  let parts := splitNlAux s.data []
  if parts.getLast? = some "" then parts.dropLast else parts

/-- `indent` from `lib.rs`: apply indentation to each line. -/
def indent (str : String) (level : Nat) : String :=
  String.intercalate "\n" ((rustLines str).map (fun l => spacesStr level ++ l))

/-- `write_indented` from `lib.rs`, returning the text it appends to the
writer: the indented string followed by a newline. -/
def write_indented (level : Nat) (str : String) : String :=
  indent str level ++ "\n"

/-- The stage-visibility match of `write_bind_group_layout_entry` in
`lib.rs`: exactly the four supported `wgpu::ShaderStages` combinations are
mapped; every other combination hits the `todo!()` arm (`none`). -/
def visibilityStr (shaderStages : ShaderStages) : Option String :=
  if shaderStages = stagesVertexFragment then some "wgpu::ShaderStages::VERTEX_FRAGMENT"
  else if shaderStages = stagesCompute then some "wgpu::ShaderStages::COMPUTE"
  else if shaderStages = stagesVertex then some "wgpu::ShaderStages::VERTEX"
  else if shaderStages = stagesFragment then some "wgpu::ShaderStages::FRAGMENT"
  else none

/-- Modelled from the spec: `wgsl::buffer_binding_type` (code not included
in the given sources; the three supported cases are pinned by the crate
tests in `lib.rs`).  Uniform and storage (read-only / read-write) buffers
map to the corresponding `wgpu::BufferBindingType`; any other storage class
fails generation. -/
def buffer_binding_type : StorageClass → Option String
  | .uniform => some "wgpu::BufferBindingType::Uniform"
  | .storage .read => some "wgpu::BufferBindingType::Storage \x7b read_only: true \x7d"
  | .storage .readWrite => some "wgpu::BufferBindingType::Storage \x7b read_only: false \x7d"
  | .storage .other => none
  | .handle => none
  | .other => none

/-- Modelled from the spec: the scalar part of `wgsl::rust_type` (code not
included in the given sources).  32-bit float and signed/unsigned 32-bit
integers map to the corresponding Rust scalar; every other scalar is
unsupported. -/
def rustScalar : Scalar → Option String
  | ⟨.float, 4⟩ => some "f32"
  | ⟨.sint, 4⟩ => some "i32"
  | ⟨.uint, 4⟩ => some "u32"
  | _ => none

/-- Modelled from the spec: `wgsl::rust_type` (code not included in the
given sources; its behaviour on vectors, the 4x4 float matrix and fixed
arrays is pinned by the `write_all_structs` crate test in `lib.rs`).
Vectors of width 2/3/4 map to fixed-size arrays, the 4x4 float matrix maps
to `glam::Mat4`, fixed-size arrays map to fixed-size Rust arrays of the
mapped element type preserving length; every other shape is unsupported and
fails generation. -/
def rust_type : WgslType → Option String
  | .scalar s => rustScalar s
  | .vector n s => do
      let e ← rustScalar s
      if 2 ≤ n ∧ n ≤ 4 then pure ("[" ++ e ++ "; " ++ toString n ++ "]") else none
  | .matrix c r s =>
      if c = 4 ∧ r = 4 ∧ s = ⟨.float, 4⟩ then some "glam::Mat4" else none
  | .array t len => do
      let e ← rust_type t
      pure ("[" ++ e ++ "; " ++ toString len ++ "]")
  | _ => none

/-- The vertex formats the generator can emit (a fragment of
`wgpu::VertexFormat`): 1/2/3/4-component 32-bit float and unsigned-integer
formats (spec §4.3). -/
inductive VertexFormat where
  | float32
  | float32x2
  | float32x3
  | float32x4
  | uint32
  | uint32x2
  | uint32x3
  | uint32x4
deriving DecidableEq

/-- `wgpu::VertexFormat::size`: the byte size of each vertex format
(components times four bytes). -/
def VertexFormat.size : VertexFormat → Nat
  | .float32 => 4
  | .float32x2 => 8
  | .float32x3 => 12
  | .float32x4 => 16
  | .uint32 => 4
  | .uint32x2 => 8
  | .uint32x3 => 12
  | .uint32x4 => 16

/-- The Rust `Debug` rendering of `wgpu::VertexFormat`, used by
`write_vertex_input_structs` inside `wgpu::vertex_attr_array!`. -/
def VertexFormat.debugStr : VertexFormat → String
  | .float32 => "Float32"
  | .float32x2 => "Float32x2"
  | .float32x3 => "Float32x3"
  | .float32x4 => "Float32x4"
  | .uint32 => "Uint32"
  | .uint32x2 => "Uint32x2"
  | .uint32x3 => "Uint32x3"
  | .uint32x4 => "Uint32x4"

/-- Modelled from the spec: `wgsl::vertex_format` (code not included in the
given sources).  Spec §4.3: every vertex-struct-member type maps to one of
a fixed enumeration of hardware vertex formats (32-bit float or
unsigned-integer scalars and vectors of width 2/3/4); any other shape is
unsupported and fails generation. -/
def vertex_format : WgslType → Option VertexFormat
  | .scalar ⟨.float, 4⟩ => some .float32
  | .scalar ⟨.uint, 4⟩ => some .uint32
  | .vector 2 ⟨.float, 4⟩ => some .float32x2
  | .vector 3 ⟨.float, 4⟩ => some .float32x3
  | .vector 4 ⟨.float, 4⟩ => some .float32x4
  | .vector 2 ⟨.uint, 4⟩ => some .uint32x2
  | .vector 3 ⟨.uint, 4⟩ => some .uint32x3
  | .vector 4 ⟨.uint, 4⟩ => some .uint32x4
  | _ => none

/-- One member line of `write_struct_members` in `lib.rs`:
`pub {member_name}: {member_type},` at the given indentation, with the
member name unwrapped (`none` models the panic) and the type mapped by
`rust_type`. -/
def struct_member_line (ind : Nat) (p : Option String × WgslType) : Option String := do
  let member_name ← p.1
  let member_type ← rust_type p.2
  pure (write_indented ind ("pub " ++ member_name ++ ": " ++ member_type ++ ","))

/-- The text `write_structs` in `lib.rs` emits for one entry of the type
arena: a `#[repr(C)]`, bytemuck-deriving Rust struct for a struct type, and
nothing at all for any other type. -/
def struct_block (ind : Nat) : WgslType → Option String
  | .structType nm members => do
      let name ← nm
      let memberLines ← mapMOpt (struct_member_line (ind + 4)) members
      pure (write_indented ind
          ("#[repr(C)]\n#[derive(Debug, Copy, Clone, PartialEq, bytemuck::Pod, bytemuck::Zeroable)]\npub struct "
            ++ name ++ " \x7b")
        ++ String.join memberLines
        ++ write_indented ind "\x7d")
  | _ => some ""

/-- `write_structs` from `lib.rs`: matching Rust structs for all WGSL
struct types, in type-arena declaration order. -/
def write_structs (ind : Nat) (m : NagaModule) : Option String := do
  let blocks ← mapMOpt (struct_block ind) m.types
  pure (String.join blocks)

/-- The binding-field type match of `write_bind_group_layout` in `lib.rs`:
struct-typed bindings are buffers, images are texture views, samplers are
samplers; anything else hits the `panic!` arm (`none`). -/
def bindGroupLayoutField : WgslType → Option String
  | .structType _ _ => some "wgpu::BufferBinding<\x27a>"
  | .image _ _ => some "&\x27a wgpu::TextureView"
  | .sampler _ => some "&\x27a wgpu::Sampler"
  | _ => none

/-- `write_bind_group_layout` from `lib.rs`: the `BindGroupLayout{n}`
struct with one field per binding, in the group's binding order. -/
def write_bind_group_layout (ind : Nat) (group_no : Nat)
    (group : List GroupBinding) : Option String := do
  let fields ← mapMOpt (fun b => do
      let field_name ← b.name
      let field_type ← bindGroupLayoutField b.binding_type
      pure (write_indented (ind + 4) ("pub " ++ field_name ++ ": " ++ field_type ++ ","))) group
  pure (write_indented ind ("pub struct BindGroupLayout" ++ toString group_no ++ "<\x27a> \x7b")
    ++ String.join fields
    ++ write_indented ind "\x7d")

/-- The `view_dimension` match of `write_bind_group_layout_entry`. -/
def viewDimStr : ImageDimension → String
  | .d1 => "wgpu::TextureViewDimension::D1"
  | .d2 => "wgpu::TextureViewDimension::D2"
  | .d3 => "wgpu::TextureViewDimension::D3"
  | .cube => "wgpu::TextureViewDimension::Cube"

/-- The `sample_type` match of `write_bind_group_layout_entry`: sampled
images are filterable floats, depth images are depth; storage images hit
the `todo!()` arm (`none`). -/
def sampleTypeStr : ImageClass → Option String
  | .sampled _ => some "wgpu::TextureSampleType::Float \x7b filterable: true \x7d"
  | .depth _ => some "wgpu::TextureSampleType::Depth"
  | .storage => none

/-- `write_bind_group_layout_entry` from `lib.rs`: one
`wgpu::BindGroupLayoutEntry` for a binding, carrying its binding index, the
stage-visibility flags, and a type-specific descriptor; unknown stage
combinations (`todo!()`), storage images (`todo!()`) and unsupported
binding types (`panic!`) abort (`none`). -/
def write_bind_group_layout_entry (binding : GroupBinding) (ind : Nat)
    (shaderStages : ShaderStages) : Option String := do
  let stages ← visibilityStr shaderStages
  let opening := write_indented ind
    ("wgpu::BindGroupLayoutEntry \x7b\n    binding: " ++ toString binding.binding_index
      ++ "u32,\n    visibility: " ++ stages ++ ",")
  let tyPart ← (match binding.binding_type with
    | .structType _ _ => do
        let bbt ← buffer_binding_type binding.storage_class
        pure (write_indented (ind + 4)
          ("ty: wgpu::BindingType::Buffer \x7b\n    ty: " ++ bbt
            ++ ",\n    has_dynamic_offset: false,\n    min_binding_size: None,\n\x7d,"))
    | .image dim cls => do
        let sample_type ← sampleTypeStr cls
        pure (write_indented (ind + 4)
          ("ty: wgpu::BindingType::Texture \x7b\n    multisampled: false,\n    view_dimension: "
            ++ viewDimStr dim ++ ",\n    sample_type: " ++ sample_type ++ ",\n\x7d,"))
    | .sampler comparison =>
        let sampler_type := if comparison then "wgpu::SamplerBindingType::Comparison"
          else "wgpu::SamplerBindingType::Filtering"
        pure (write_indented (ind + 4) ("ty: wgpu::BindingType::Sampler(" ++ sampler_type ++ "),"))
    | _ => none)
  pure (opening ++ tyPart ++ write_indented ind "    count: None,\n\x7d,")

/-- `write_bind_group_layout_descriptor` from `lib.rs`: the
`LAYOUT_DESCRIPTOR{n}` constant with one layout entry per binding, in the
group's binding order. -/
def write_bind_group_layout_descriptor (ind : Nat) (group_no : Nat)
    (group : List GroupBinding) (shaderStages : ShaderStages) : Option String := do
  let entries ← mapMOpt (fun b => write_bind_group_layout_entry b (ind + 8) shaderStages) group
  pure (write_indented ind
      ("const LAYOUT_DESCRIPTOR" ++ toString group_no
        ++ ": wgpu::BindGroupLayoutDescriptor = wgpu::BindGroupLayoutDescriptor \x7b\n    label: None,\n    entries: &[")
    ++ String.join entries
    ++ write_indented ind "    ]\n\x7d;")

/-- The binding-resource match of `impl_bind_group` in `lib.rs`: buffers,
texture views and samplers; anything else hits the `panic!` arm (`none`). -/
def bindingResourceStr (binding_name : String) : WgslType → Option String
  | .structType _ _ => some ("wgpu::BindingResource::Buffer(bindings." ++ binding_name ++ ")")
  | .image _ _ => some ("wgpu::BindingResource::TextureView(bindings." ++ binding_name ++ ")")
  | .sampler _ => some ("wgpu::BindingResource::Sampler(bindings." ++ binding_name ++ ")")
  | _ => none

/-- The `is_compute` test computed (twice, identically) in
`write_bind_groups_module` and `impl_bind_group`:
`shader_stages == wgpu::ShaderStages::COMPUTE`. -/
def moduleIsCompute (shaderStages : ShaderStages) : Bool :=
  shaderStages = stagesCompute

/-- The pass-type string chosen from `is_compute` in `write_set_bind_groups`
and `impl_bind_group`: a compute pass exactly when the module's stage set is
exactly compute, otherwise a render pass. -/
def passTypeStr (is_compute : Bool) : String :=
  if is_compute then "wgpu::ComputePass<\x27a>" else "wgpu::RenderPass<\x27a>"

/-- `impl_bind_group` from `lib.rs`: the `impl BindGroup{n}` block with the
layout accessor, the `from_bindings` constructor listing one
`wgpu::BindGroupEntry` per binding in the group's binding order, and the
`set` operation recording the group's index on a render or compute pass. -/
def impl_bind_group (ind : Nat) (group_no : Nat) (group : List GroupBinding)
    (shaderStages : ShaderStages) : Option String := do
  let opening := write_indented ind
    ("impl BindGroup" ++ toString group_no
      ++ " \x7b\n    pub fn get_bind_group_layout(device: &wgpu::Device) -> wgpu::BindGroupLayout \x7b\n        device.create_bind_group_layout(&LAYOUT_DESCRIPTOR"
      ++ toString group_no
      ++ ")\n    \x7d\n\n    pub fn from_bindings(device: &wgpu::Device, bindings: BindGroupLayout"
      ++ toString group_no
      ++ ") -> Self \x7b\n        let bind_group_layout = device.create_bind_group_layout(&LAYOUT_DESCRIPTOR"
      ++ toString group_no
      ++ ");\n        let bind_group = device.create_bind_group(&wgpu::BindGroupDescriptor \x7b\n            layout: &bind_group_layout,\n            entries: &[")
  let entries ← mapMOpt (fun b => do
      let binding_name ← b.name
      let resource_type ← bindingResourceStr binding_name b.binding_type
      pure (write_indented (ind + 16)
        ("wgpu::BindGroupEntry \x7b\n    binding: " ++ toString b.binding_index
          ++ "u32,\n    resource: " ++ resource_type ++ ",\n\x7d,"))) group
  let closing := write_indented (ind + 4)
    "        ],\n        label: None,\n    \x7d);\n    Self(bind_group)\n\x7d"
  let setFn := write_indented ind
    ("\n    pub fn set<\x27a>(&\x27a self, render_pass: &mut "
      ++ passTypeStr (moduleIsCompute shaderStages)
      ++ ") \x7b\n        render_pass.set_bind_group(" ++ toString group_no
      ++ "u32, &self.0, &[]);\n    \x7d\n\x7d")
  pure (opening ++ String.join entries ++ closing ++ setFn)

/-- `write_set_bind_groups` from `lib.rs`: the bulk-bind helper, attaching
every group's wrapper to the pass in the group map's order. -/
def write_set_bind_groups (ind : Nat) (bind_group_data : List (Nat × List GroupBinding))
    (is_compute : Bool) : String :=
  write_indented ind
    ("pub fn set_bind_groups<\x27a>(\n    pass: &mut " ++ passTypeStr is_compute
      ++ ",\n    bind_groups: BindGroups<\x27a>,\n) \x7b")
  ++ String.join (bind_group_data.map (fun p =>
      write_indented (ind + 4) ("bind_groups.bind_group" ++ toString p.1 ++ ".set(pass);")))
  ++ write_indented ind "\x7d"

/-- The per-group text of the loop in `write_bind_groups_module`: the
`BindGroup{n}` wrapper struct, its layout struct, its layout descriptor and
its `impl` block. -/
def group_chunk (shaderStages : ShaderStages) (p : Nat × List GroupBinding) : Option String := do
  let layout ← write_bind_group_layout 4 p.1 p.2
  let descr ← write_bind_group_layout_descriptor 4 p.1 p.2 shaderStages
  let implBlock ← impl_bind_group 4 p.1 p.2 shaderStages
  pure ("    pub struct BindGroup" ++ toString p.1 ++ "(wgpu::BindGroup);\n"
    ++ layout ++ descr ++ implBlock)

/-- `write_bind_groups_module` from `lib.rs`: the `bind_groups` module,
with one chunk per group, the `BindGroups` aggregate with one field per
group, and the `set_bind_groups` helper, all following the group map's
order. -/
def write_bind_groups_module (bind_group_data : List (Nat × List GroupBinding))
    (shaderStages : ShaderStages) : Option String := do
  let chunks ← mapMOpt (group_chunk shaderStages) bind_group_data
  pure ("pub mod bind_groups \x7b\n"
    ++ String.join chunks
    ++ "    pub struct BindGroups<\x27a> \x7b\n"
    ++ String.join (bind_group_data.map (fun p =>
        "        pub bind_group" ++ toString p.1 ++ ": &\x27a BindGroup" ++ toString p.1 ++ ",\n"))
    ++ "    \x7d\n"
    ++ write_set_bind_groups 4 bind_group_data (moduleIsCompute shaderStages)
    ++ "\x7d\n")

/-- The per-vertex-input text of `write_vertex_input_structs` in `lib.rs`:
the attribute table (location, format pairs in member order) and the
`SIZE_IN_BYTES` constant, the unpadded sum of the members' vertex-format
byte sizes. -/
def write_vertex_input_struct (input : VertexInput) : Option String := do
  let formats ← mapMOpt (fun p => vertex_format p.2) input.fields
  let count := input.fields.length
  let attributes := String.intercalate ", "
    ((input.fields.zip formats).map (fun q => toString q.1.1 ++ " => " ++ q.2.debugStr))
  let size_in_bytes := (formats.map VertexFormat.size).sum
  pure (write_indented 4
    ("impl super::" ++ input.name ++ " \x7b\n    pub const VERTEX_ATTRIBUTES: [wgpu::VertexAttribute; "
      ++ toString count ++ "] = wgpu::vertex_attr_array![" ++ attributes
      ++ "];\n    /// The total size in bytes of all fields without considering padding or alignment.\n    pub const SIZE_IN_BYTES: u64 = "
      ++ toString size_in_bytes ++ ";\n\x7d"))

/-- `write_vertex_input_structs` from `lib.rs`: one `impl` block per
vertex-input struct. -/
def write_vertex_input_structs (m : NagaModule) : Option String := do
  let impls ← mapMOpt write_vertex_input_struct m.vertexInputs
  pure (String.join impls)

/-- `write_vertex_module` from `lib.rs`: the `vertex` module wrapping the
vertex-input `impl` blocks. -/
def write_vertex_module (m : NagaModule) : Option String := do
  let body ← write_vertex_input_structs m
  pure ("pub mod vertex \x7b\n" ++ body ++ "\x7d\n")

/-- The shader-module factory text written by `create_shader_module` in
`lib.rs`, with the include path embedded verbatim. -/
def shader_module_fn_str (wgsl_include_path : String) : String :=
  "pub fn create_shader_module(device: &wgpu::Device) -> wgpu::ShaderModule \x7b\n    device.create_shader_module(&wgpu::ShaderModuleDescriptor \x7b\n        label: None,\n        source: wgpu::ShaderSource::Wgsl(std::borrow::Cow::Borrowed(include_str!(\""
  ++ wgsl_include_path
  ++ "\")))\n    \x7d)\n\x7d\n"

/-- The pipeline-layout factory text written by `create_shader_module` in
`lib.rs`: its `bind_group_layouts` list invokes each group's layout
accessor in the group map's order. -/
def pipeline_layout_fn_str (bind_group_data : List (Nat × List GroupBinding)) : String :=
  let bind_group_layouts := String.intercalate "\n            "
    (bind_group_data.map (fun p =>
      "&bind_groups::BindGroup" ++ toString p.1 ++ "::get_bind_group_layout(device),"))
  "pub fn create_pipeline_layout(device: &wgpu::Device) -> wgpu::PipelineLayout \x7b\n    device.create_pipeline_layout(&wgpu::PipelineLayoutDescriptor \x7b\n        label: None,\n        bind_group_layouts: &[\n            "
  ++ bind_group_layouts
  ++ "\n        ],\n        push_constant_ranges: &[],\n    \x7d)\n\x7d\n"

/-- `create_shader_module` from `lib.rs`.  The input is the result of the
external `naga` parse (`none` models a parse failure, which the source
unwraps, i.e. panics on).  On success the full generated text is returned;
a validation failure of `get_bind_group_data` is returned as a structured
error; a panic anywhere in emission yields `GenResult.panic`. -/
def create_shader_module (parsed : Option NagaModule) (wgsl_include_path : String) : GenResult :=
  match parsed with
  | none => .panic
  | some m =>
      match get_bind_group_data m with
      | .error e => .err e
      | .ok bind_group_data =>
          let stages := shader_stages m
          match write_structs 0 m with
          | none => .panic
          | some structsPart =>
              match write_bind_groups_module bind_group_data stages with
              | none => .panic
              | some bindGroupsPart =>
                  match write_vertex_module m with
                  | none => .panic
                  | some vertexPart =>
                      .ok (structsPart ++ bindGroupsPart ++ vertexPart
                        ++ shader_module_fn_str wgsl_include_path
                        ++ pipeline_layout_fn_str bind_group_data)

/-- The group indices of the validated group map, sorted ascending (the
`BTreeMap` key order). -/
def sortedGroupIndices (m : NagaModule) : List Nat :=
  (buildGroups m.globals).map Prod.fst

/-- A binding whose type no emitter of `lib.rs` supports: storage images
hit the `todo!()` arm of `write_bind_group_layout_entry`, and types that
are neither structs, images nor samplers hit its `panic!` arm. -/
def bindingUnsupported (b : GroupBinding) : Bool :=
  match b.binding_type with
  | .structType _ _ => false
  | .image _ .storage => true
  | .image _ _ => false
  | .sampler _ => false
  | _ => true

/-- If `f` fails on some element of the list, the sequential map fails. -/
theorem mapMOpt_eq_none {f : α → Option β} {l : List α} {x : α}
    (hx : x ∈ l) (hf : f x = none) : mapMOpt f l = none := by
  induction l with
  | nil => cases hx
  | cons a l ih =>
      rcases List.mem_cons.mp hx with rfl | hx
      · simp [mapMOpt, hf]
      · cases ha : f a with
        | none => simp [mapMOpt, ha]
        | some b => simp [mapMOpt, ha, ih hx]

/-- If every `(group, binding)` pair occurs at most once, the
duplicate-binding scan finds nothing. -/
theorem firstDup_eq_none {l : List (Nat × Nat)}
    (h : ∀ q, l.count q ≤ 1) : firstDup l = none := by
  induction l with
  | nil => rfl
  | cons p rest ih =>
      have hp : p ∉ rest := by
        intro hmem
        have h1 := h p
        rw [List.count_cons_self] at h1
        have h2 : 0 < rest.count p := List.count_pos_iff.mpr hmem
        omega
      have hrest : ∀ q, rest.count q ≤ 1 := by
        intro q
        have h1 := h q
        rw [List.count_cons] at h1
        omega
      simp [firstDup, hp, ih hrest]

/-- If exactly the pair `(g, b)` occurs twice and every other pair at most
once, the duplicate-binding scan reports `b`. -/
theorem firstDup_eq_some {l : List (Nat × Nat)} {g b : Nat}
    (h2 : l.count (g, b) = 2) (h1 : ∀ q, q ≠ (g, b) → l.count q ≤ 1) :
    firstDup l = some b := by
  induction l with
  | nil => simp at h2
  | cons p rest ih =>
      by_cases hp : p = (g, b)
      · subst hp
        rw [List.count_cons_self] at h2
        have hmem : (g, b) ∈ rest := List.count_pos_iff.mp (by omega)
        simp [firstDup, hmem]
      · have hcp := h1 p hp
        rw [List.count_cons_self] at hcp
        have hpnot : p ∉ rest := by
          intro hmem
          have := List.count_pos_iff.mpr hmem
          omega
        have h2' : rest.count (g, b) = 2 := by
          rw [List.count_cons_of_ne (fun hc => hp hc.symm)] at h2
          exact h2
        have h1' : ∀ q, q ≠ (g, b) → rest.count q ≤ 1 := by
          intro q hq
          have := h1 q hq
          rw [List.count_cons] at this
          omega
        simp [firstDup, hpnot, ih h2' h1']

/-- The keys after inserting a binding for group `g` are `g` together with
the previous keys. -/
theorem mem_keys_insertBinding {a g : Nat} {b : GroupBinding}
    {l : List (Nat × List GroupBinding)} :
    a ∈ (insertBinding g b l).map Prod.fst ↔ a = g ∨ a ∈ l.map Prod.fst := by
  induction l with
  | nil => simp [insertBinding]
  | cons p rest ih =>
      obtain ⟨k, bs⟩ := p
      by_cases h1 : g < k
      · simp [insertBinding, h1]
      · by_cases h2 : g = k
        · subst h2
          simp [insertBinding, h1]
        · simp [insertBinding, h1, h2, ih]
          tauto

/-- Inserting a binding preserves the strict ascending order of the group
map's keys. -/
theorem sorted_insertBinding {g : Nat} {b : GroupBinding}
    {l : List (Nat × List GroupBinding)}
    (h : (l.map Prod.fst).Pairwise (· < ·)) :
    ((insertBinding g b l).map Prod.fst).Pairwise (· < ·) := by
  induction l with
  | nil => simp [insertBinding]
  | cons p rest ih =>
      obtain ⟨k, bs⟩ := p
      rw [List.map_cons, List.pairwise_cons] at h
      obtain ⟨hk, hrest⟩ := h
      by_cases h1 : g < k
      · simp only [insertBinding, if_pos h1, List.map_cons]
        refine List.Pairwise.cons ?_ (List.Pairwise.cons hk hrest)
        intro a ha
        rcases List.mem_cons.mp ha with rfl | ha
        · exact h1
        · exact lt_trans h1 (hk a ha)
      · by_cases h2 : g = k
        · subst h2
          simp only [insertBinding, if_neg h1, if_pos rfl, List.map_cons]
          exact List.Pairwise.cons hk hrest
        · have hgk : k < g := by omega
          simp only [insertBinding, if_neg h1, if_neg h2, List.map_cons]
          refine List.Pairwise.cons ?_ (ih hrest)
          intro a ha
          rcases mem_keys_insertBinding.mp ha with rfl | ha
          · exact hgk
          · exact hk a ha

/-- The group map built from the globals has strictly ascending keys: the
sorted-ascending invariant of the `BTreeMap`. -/
theorem buildGroups_sorted (gs : List GlobalVariable) :
    ((buildGroups gs).map Prod.fst).Pairwise (· < ·) := by
  induction gs with
  | nil => simp [buildGroups]
  | cons g rest ih =>
      cases hb : g.binding with
      | none => simpa [buildGroups, hb] using ih
      | some p =>
          obtain ⟨grp, idx⟩ := p
          simpa [buildGroups, hb] using sorted_insertBinding ih

/-- The group map's keys are exactly the group indices that occur in some
global's `(group, binding)` attribute. -/
theorem mem_buildGroups_keys {gs : List GlobalVariable} {a : Nat} :
    a ∈ (buildGroups gs).map Prod.fst ↔ ∃ i, (a, i) ∈ globalPairs gs := by
  induction gs with
  | nil => simp [buildGroups, globalPairs]
  | cons g rest ih =>
      cases hb : g.binding with
      | none =>
          simp only [buildGroups, hb, globalPairs, List.filterMap_cons] at *
          simpa [hb] using ih
      | some p =>
          obtain ⟨grp, idx⟩ := p
          simp only [buildGroups, hb, globalPairs, List.filterMap_cons,
            mem_keys_insertBinding] at *
          simp only [hb, List.mem_cons, Prod.mk.injEq]
          constructor
          · rintro (rfl | ha)
            · exact ⟨idx, Or.inl ⟨rfl, rfl⟩⟩
            · obtain ⟨i, hi⟩ := ih.mp ha
              exact ⟨i, Or.inr hi⟩
          · rintro ⟨i, ⟨rfl, rfl⟩ | hi⟩
            · exact Or.inl rfl
            · exact Or.inr (ih.mpr ⟨i, hi⟩)

/-- The sorted group-index list is strictly ascending. -/
theorem sortedGroupIndices_sorted (m : NagaModule) :
    (sortedGroupIndices m).Pairwise (· < ·) :=
  buildGroups_sorted m.globals

/-- The sorted group-index list holds exactly the group indices declared by
the module's globals. -/
theorem mem_sortedGroupIndices {m : NagaModule} {a : Nat} :
    a ∈ sortedGroupIndices m ↔ ∃ i, (a, i) ∈ globalPairs m.globals :=
  mem_buildGroups_keys

/-- A successful validation returns the group map built from the globals. -/
theorem get_bind_group_data_ok {m : NagaModule}
    {data : List (Nat × List GroupBinding)}
    (h : get_bind_group_data m = .ok data) : data = buildGroups m.globals := by
  unfold get_bind_group_data at h
  cases hfd : firstDup (globalPairs m.globals) with
  | some b => rw [hfd] at h; cases h
  | none =>
      rw [hfd] at h
      by_cases hif :
          (buildGroups m.globals).map Prod.fst = List.range (buildGroups m.globals).length
      · simp only [hif, if_pos] at h
        cases h
        rfl
      · simp only [hif, if_neg, if_false] at h
        cases h

/-- An unsupported binding makes `write_bind_group_layout_entry` panic. -/
theorem write_entry_none_of_unsupported {b : GroupBinding} {ind : Nat}
    {shaderStages : ShaderStages} (h : bindingUnsupported b = true) :
    write_bind_group_layout_entry b ind shaderStages = none := by
  obtain ⟨nm, idx, ty, sc⟩ := b
  cases hv : visibilityStr shaderStages with
  | none => simp [write_bind_group_layout_entry, hv]
  | some s =>
      cases ty with
      | structType n mem => simp [bindingUnsupported] at h
      | sampler c => simp [bindingUnsupported] at h
      | image d cls =>
          cases cls with
          | storage => simp [write_bind_group_layout_entry, hv, sampleTypeStr]
          | sampled mu => simp [bindingUnsupported] at h
          | depth mu => simp [bindingUnsupported] at h
      | scalar s => simp [write_bind_group_layout_entry, hv]
      | vector n s => simp [write_bind_group_layout_entry, hv]
      | matrix c r s => simp [write_bind_group_layout_entry, hv]
      | array t n => simp [write_bind_group_layout_entry, hv]
      | otherType => simp [write_bind_group_layout_entry, hv]

/-- An unsupported binding makes the layout descriptor of its group
panic. -/
theorem descriptor_none_of_unsupported {ind group_no : Nat}
    {group : List GroupBinding} {shaderStages : ShaderStages} {b : GroupBinding}
    (hmem : b ∈ group) (h : bindingUnsupported b = true) :
    write_bind_group_layout_descriptor ind group_no group shaderStages = none := by
  have he : write_bind_group_layout_entry b (ind + 8) shaderStages = none :=
    write_entry_none_of_unsupported h
  unfold write_bind_group_layout_descriptor
  rw [mapMOpt_eq_none hmem he]
  rfl

/-- An unsupported binding makes its whole group chunk panic. -/
theorem group_chunk_none_of_unsupported {shaderStages : ShaderStages}
    {p : Nat × List GroupBinding} {b : GroupBinding}
    (hmem : b ∈ p.2) (h : bindingUnsupported b = true) :
    group_chunk shaderStages p = none := by
  unfold group_chunk
  cases hl : write_bind_group_layout 4 p.1 p.2 with
  | none => rfl
  | some layout =>
      simp [hl, descriptor_none_of_unsupported hmem h]

/-- An unsupported binding in any group makes the bind-groups module
panic. -/
theorem bind_groups_module_none_of_unsupported
    {bind_group_data : List (Nat × List GroupBinding)} {shaderStages : ShaderStages}
    {p : Nat × List GroupBinding} {b : GroupBinding}
    (hp : p ∈ bind_group_data) (hb : b ∈ p.2) (h : bindingUnsupported b = true) :
    write_bind_groups_module bind_group_data shaderStages = none := by
  unfold write_bind_groups_module
  rw [mapMOpt_eq_none hp (group_chunk_none_of_unsupported hb h)]
  rfl

/-- A member whose type `rust_type` does not support makes its member line
panic. -/
theorem struct_member_line_none {ind : Nat} {mem : Option String × WgslType}
    (h : rust_type mem.2 = none) : struct_member_line ind mem = none := by
  obtain ⟨nm, t⟩ := mem
  cases nm with
  | none => rfl
  | some n => simp [struct_member_line, h]

/-- A struct with a member whose type `rust_type` does not support makes
its struct block panic. -/
theorem struct_block_none_of_unsupported {ind : Nat} {t : WgslType}
    {nm : Option String} {members : List (Option String × WgslType)}
    {mem : Option String × WgslType}
    (hts : t = WgslType.structType nm members) (hmem : mem ∈ members)
    (h : rust_type mem.2 = none) : struct_block ind t = none := by
  subst hts
  cases nm with
  | none => rfl
  | some n =>
      simp [struct_block, mapMOpt_eq_none hmem (struct_member_line_none h)]

/-- A panicking struct block for any type in the arena makes
`write_structs` panic. -/
theorem write_structs_none_of_unsupported {ind : Nat} {m : NagaModule}
    {t : WgslType} (ht : t ∈ m.types) (hb : struct_block ind t = none) :
    write_structs ind m = none := by
  unfold write_structs
  rw [mapMOpt_eq_none ht hb]
  rfl

/-- The 32-bit float scalar. -/
def scalarF32 : Scalar := ⟨.float, 4⟩

/-- A small uniform-friendly struct type used by the concrete shaders
below (`struct A { f: vec4<f32>; }`). -/
def tStructA : WgslType := .structType (some "A") [(some "f", .vector 4 scalarF32)]

/-- A shader with bind groups `{0, 2}` (a gap) and a duplicate binding
index 2 within group 0. -/
def exM1 : NagaModule :=
  ⟨[tStructA],
   [⟨some "a", some (0, 2), .uniform, tStructA⟩,
    ⟨some "b", some (0, 2), .uniform, tStructA⟩,
    ⟨some "c", some (2, 0), .uniform, tStructA⟩],
   [.fragment], []⟩

/-- A shader with the single bind group `{1}`: a gap at 0, all bindings
unique. -/
def wM1 : NagaModule :=
  ⟨[tStructA], [⟨some "c", some (1, 0), .uniform, tStructA⟩], [.fragment], []⟩

/-- A shader with two bindings sharing binding index 2 in group 0 (the
shape of the `create_shader_module_repeated_bindings` crate test). -/
def wM2 : NagaModule :=
  ⟨[tStructA],
   [⟨some "a", some (0, 2), .uniform, tStructA⟩,
    ⟨some "b", some (0, 2), .uniform, tStructA⟩],
   [.fragment], []⟩

/-- A shader whose only resource is a storage texture at `(0, 0)`: a
supported binding location with an unsupported resource type. -/
def exM3 : NagaModule :=
  ⟨[], [⟨some "color_texture", some (0, 0), .handle, .image .d2 .storage⟩],
   [.fragment], []⟩

/-- The group binding the IR adapter derives for the single global of
`exM3W`. -/
def bT : GroupBinding := ⟨some "t", 0, .otherType, .handle⟩

/-- A shader whose only resource at `(0, 0)` has a type outside every
supported shape (the `panic!` arms). -/
def exM3W : NagaModule :=
  ⟨[], [⟨some "t", some (0, 0), .handle, .otherType⟩], [.fragment], []⟩

/-- A WGSL struct with a member of an unsupported type: a 64-bit float
scalar (`rust_type` supports only 32-bit scalar widths). -/
def tBadMember : WgslType :=
  .structType (some "S") [(some "a", .scalar ⟨.float, 8⟩)]

/-- A shader with no resources whose type arena holds a struct with an
unsupported (64-bit scalar) member type. -/
def exM3M : NagaModule := ⟨[tBadMember], [], [.fragment], []⟩

/-- A minimal well-formed shader: no resources, no structs, one fragment
entry point. -/
def wM4 : NagaModule := ⟨[], [], [.fragment], []⟩

/-- The bind-groups module text of `wM4`. -/
def wBG4 : String := (write_bind_groups_module [] (shader_stages wM4)).getD ""

/-- The vertex module text of `wM4`. -/
def wVM4 : String := (write_vertex_module wM4).getD ""

/-- A well-formed shader with two bind groups (0 and 1), one uniform
buffer each, vertex and fragment entry points. -/
def wM6 : NagaModule :=
  ⟨[tStructA],
   [⟨some "a", some (0, 0), .uniform, tStructA⟩,
    ⟨some "b", some (1, 0), .uniform, tStructA⟩],
   [.vertex, .fragment], []⟩

/-- The validated group map of `wM6`. -/
def wData6 : List (Nat × List GroupBinding) := buildGroups wM6.globals

/-- The per-group chunks emitted for `wM6`. -/
def wChunks6 : List String :=
  (mapMOpt (group_chunk (shader_stages wM6)) wData6).getD []

/-- A vertex-input struct with a `vec4<f32>` field at location 0 and a
`vec2<f32>` field at location 1. -/
def wVI7 : VertexInput :=
  ⟨"VertexInput0", [(0, .vector 4 scalarF32), (1, .vector 2 scalarF32)]⟩

/-- Members of a WGSL struct with a `vec2<f32>` and a `mat4x4<f32>`
field. -/
def wMembers9 : List (Option String × WgslType) :=
  [(some "a", .vector 2 scalarF32), (some "b", .matrix 4 4 scalarF32)]

/-- The member lines emitted for `wMembers9`. -/
def wLines9 : List String := (mapMOpt (struct_member_line 4) wMembers9).getD []

/-- C1 (amended): for every shader input whose set of bind group indices,
sorted ascending, is not exactly `0, 1, …, N-1`, and whose
`(group, binding)` pairs are pairwise distinct (bindings unique within
each group), `create_shader_module` fails with the
`NonConsecutiveBindGroups` error.  As originally stated — "regardless of
whether bindings within each group are unique" — the claim fails, because
a duplicate binding is detected first (see the counterexample). -/
theorem c1_nonconsecutive_groups_error (m : NagaModule) (path : String)
    (h1 : ∀ q, (globalPairs m.globals).count q ≤ 1)
    (h2 : sortedGroupIndices m ≠ List.range (sortedGroupIndices m).length) :
    create_shader_module (some m) path = .err .NonConsecutiveBindGroups := by
  have hd : firstDup (globalPairs m.globals) = none := firstDup_eq_none h1
  have hne : ¬((buildGroups m.globals).map Prod.fst =
      List.range (buildGroups m.globals).length) := by
    intro hc
    apply h2
    show (buildGroups m.globals).map Prod.fst =
      List.range ((buildGroups m.globals).map Prod.fst).length
    rw [List.length_map]
    exact hc
  simp [create_shader_module, get_bind_group_data, hd, hne]

/-- C1 counterexample: a shader with groups `{0, 2}` (a gap) whose group 0
duplicates binding index 2 fails with `DuplicateBinding 2`, not with
`NonConsecutiveBindGroups`. -/
theorem c1_counterexample :
    sortedGroupIndices exM1 ≠ List.range (sortedGroupIndices exM1).length ∧
    create_shader_module (some exM1) "shader.wgsl" = .err (.DuplicateBinding 2) ∧
    create_shader_module (some exM1) "shader.wgsl" ≠ .err .NonConsecutiveBindGroups := by
  refine ⟨by decide, rfl, by decide⟩

/-- C1 witness: a shader whose only group is 1 (gap at 0), bindings
unique, fails with `NonConsecutiveBindGroups`. -/
theorem c1_witness :
    create_shader_module (some wM1) "shader.wgsl" = .err .NonConsecutiveBindGroups :=
  c1_nonconsecutive_groups_error wM1 "shader.wgsl"
    (fun q => le_trans (List.count_le_length q (globalPairs wM1.globals)) (by decide))
    (by decide)

/-- C2: for every shader input in which the pair `(g, b)` occurs twice
(two bindings of group `g` share binding index `b`) and every other
`(group, binding)` pair occurs at most once, `create_shader_module` fails
with `DuplicateBinding b`, carrying that exact binding index. -/
theorem c2_duplicate_binding_error (m : NagaModule) (path : String) (g b : Nat)
    (h1 : (globalPairs m.globals).count (g, b) = 2)
    (h2 : ∀ q, q ≠ (g, b) → (globalPairs m.globals).count q ≤ 1) :
    create_shader_module (some m) path = .err (.DuplicateBinding b) := by
  have hd := firstDup_eq_some h1 h2
  simp [create_shader_module, get_bind_group_data, hd]

/-- C2 witness: binding index 2 declared twice in group 0 (the shape of
the `create_shader_module_repeated_bindings` crate test) yields
`DuplicateBinding 2`. -/
theorem c2_witness :
    create_shader_module (some wM2) "shader.wgsl" = .err (.DuplicateBinding 2) :=
  c2_duplicate_binding_error wM2 "shader.wgsl" 0 2 (by decide)
    (fun q hq => by
      have hnot : q ∉ globalPairs wM2.globals := by
        intro hmem
        apply hq
        have : globalPairs wM2.globals = [((0 : Nat), (2 : Nat)), (0, 2)] := rfl
        rw [this] at hmem
        rcases List.mem_cons.mp hmem with h | h
        · exact h
        · simpa using h
      simp [List.count_eq_zero.mpr hnot])

/-- C3 (amended): for every shader input that validates but contains a
resource or member type outside the supported set — a binding whose
resource type is unsupported (storage textures, or types that are neither
structs, images nor samplers), or a struct member whose type `rust_type`
does not support (scalar bit-widths other than 32, matrix shapes other
than 4x4 f32, and so on) — `create_shader_module` aborts the generation
with a panic — no code is emitted — but the failure is a panic, not a
typed `CreateModuleError` value.  As originally stated — "surfaced to the
caller as a typed error value" — the claim fails (see the
counterexample). -/
theorem c3_unsupported_type_panics (m : NagaModule) (path : String)
    (data : List (Nat × List GroupBinding))
    (h1 : get_bind_group_data m = .ok data)
    (h2 : (∃ p ∈ data, ∃ b ∈ p.2, bindingUnsupported b = true) ∨
      (∃ t ∈ m.types, ∃ nm members, t = WgslType.structType nm members ∧
        ∃ mem ∈ members, rust_type mem.2 = none)) :
    create_shader_module (some m) path = GenResult.panic := by
  rcases h2 with ⟨p, hp, b, hb, hu⟩ | ⟨t, ht, nm, members, hts, mem, hmem, hrt⟩
  · have hbgm : write_bind_groups_module data (shader_stages m) = none :=
      bind_groups_module_none_of_unsupported hp hb hu
    cases hws : write_structs 0 m with
    | none => simp [create_shader_module, h1, hws]
    | some s => simp [create_shader_module, h1, hws, hbgm]
  · have hws : write_structs 0 m = none :=
      write_structs_none_of_unsupported ht
        (struct_block_none_of_unsupported hts hmem hrt)
    simp [create_shader_module, h1, hws]

/-- C3 counterexample: a shader binding a storage texture at `(0, 0)`
makes `create_shader_module` panic (`todo!()`): the outcome is not a typed
error value. -/
theorem c3_counterexample :
    bindingUnsupported ⟨some "color_texture", 0, .image .d2 .storage, .handle⟩ = true ∧
    create_shader_module (some exM3) "shader.wgsl" = GenResult.panic ∧
    (create_shader_module (some exM3) "shader.wgsl").isErr = false := by
  refine ⟨rfl, rfl, rfl⟩

/-- C3 witness: a binding whose resource type is outside every supported
shape, and a struct whose member type is a 64-bit scalar, each make
`create_shader_module` panic. -/
theorem c3_witness :
    create_shader_module (some exM3W) "shader.wgsl" = GenResult.panic ∧
    create_shader_module (some exM3M) "shader.wgsl" = GenResult.panic :=
  ⟨c3_unsupported_type_panics exM3W "shader.wgsl" [(0, [bT])] rfl
      (Or.inl ⟨(0, [bT]), by simp, bT, by simp, rfl⟩),
   c3_unsupported_type_panics exM3M "shader.wgsl" [] rfl
      (Or.inr ⟨tBadMember, by simp [exM3M], some "S",
        [(some "a", WgslType.scalar ⟨.float, 8⟩)], rfl,
        (some "a", WgslType.scalar ⟨.float, 8⟩), by simp [tBadMember], rfl⟩)⟩

/-- C4: `create_shader_module` returns a structured error exactly when
validation fails (the error type carries no source text), and on success
it returns the full concatenation of all generated sections: the structs,
the bind-groups module, the vertex module, the shader-module factory and
the pipeline-layout factory. -/
theorem c4_full_text_or_error (m : NagaModule) (path : String) :
    (∀ e, create_shader_module (some m) path = .err e ↔
      get_bind_group_data m = .error e) ∧
    (∀ data structsPart bindGroupsPart vertexPart,
      get_bind_group_data m = .ok data →
      write_structs 0 m = some structsPart →
      write_bind_groups_module data (shader_stages m) = some bindGroupsPart →
      write_vertex_module m = some vertexPart →
      create_shader_module (some m) path =
        .ok (structsPart ++ bindGroupsPart ++ vertexPart
          ++ shader_module_fn_str path ++ pipeline_layout_fn_str data)) := by
  constructor
  · intro e
    cases hg : get_bind_group_data m with
    | error e2 => simp [create_shader_module, hg]
    | ok data =>
        cases hws : write_structs 0 m with
        | none => simp [create_shader_module, hg, hws]
        | some s1 =>
            cases hbg : write_bind_groups_module data (shader_stages m) with
            | none => simp [create_shader_module, hg, hws, hbg]
            | some s2 =>
                cases hvm : write_vertex_module m with
                | none => simp [create_shader_module, hg, hws, hbg, hvm]
                | some s3 => simp [create_shader_module, hg, hws, hbg, hvm]
  · intro data s1 s2 s3 hg hws hbg hvm
    simp [create_shader_module, hg, hws, hbg, hvm]

/-- C4 witness: on the minimal well-formed shader the result is the full
concatenation of all five sections. -/
theorem c4_witness :
    create_shader_module (some wM4) "shader.wgsl" =
      .ok ("" ++ wBG4 ++ wVM4 ++ shader_module_fn_str "shader.wgsl"
        ++ pipeline_layout_fn_str []) :=
  (c4_full_text_or_error wM4 "shader.wgsl").2 [] "" wBG4 wVM4 rfl rfl rfl rfl

/-- C5: `create_shader_module` is deterministic: two runs on identical
inputs (the same parse result and the same include path) produce identical
results. -/
theorem c5_deterministic (parsed1 parsed2 : Option NagaModule)
    (path1 path2 : String) (h1 : parsed1 = parsed2) (h2 : path1 = path2) :
    create_shader_module parsed1 path1 = create_shader_module parsed2 path2 := by
  rw [h1, h2]

/-- C5 witness: determinism at a concrete input. -/
theorem c5_witness :
    create_shader_module (some wM4) "shader.wgsl" =
      create_shader_module (some wM4) "shader.wgsl" :=
  c5_deterministic (some wM4) (some wM4) "shader.wgsl" "shader.wgsl" rfl rfl

/-- C6: the validated group map has strictly ascending group indices, and
every emitted construct traverses it in that order: the per-group
layout/descriptor/wrapper chunks, the `BindGroups` aggregate's fields, the
`set_bind_groups` helper's per-group bind calls, and the pipeline-layout
factory's bind-group-layout list. -/
theorem c6_ascending_group_order (m : NagaModule)
    (data : List (Nat × List GroupBinding)) (chunks : List String)
    (h : get_bind_group_data m = .ok data)
    (hc : mapMOpt (group_chunk (shader_stages m)) data = some chunks) :
    (data.map Prod.fst).Pairwise (· < ·) ∧
    write_bind_groups_module data (shader_stages m) = some
      ("pub mod bind_groups \x7b\n" ++ String.join chunks
        ++ "    pub struct BindGroups<\x27a> \x7b\n"
        ++ String.join (data.map (fun p =>
            "        pub bind_group" ++ toString p.1 ++ ": &\x27a BindGroup"
              ++ toString p.1 ++ ",\n"))
        ++ "    \x7d\n"
        ++ write_set_bind_groups 4 data (moduleIsCompute (shader_stages m))
        ++ "\x7d\n") ∧
    write_set_bind_groups 4 data (moduleIsCompute (shader_stages m)) =
      write_indented 4 ("pub fn set_bind_groups<\x27a>(\n    pass: &mut "
          ++ passTypeStr (moduleIsCompute (shader_stages m))
          ++ ",\n    bind_groups: BindGroups<\x27a>,\n) \x7b")
        ++ String.join (data.map (fun p =>
            write_indented 8 ("bind_groups.bind_group" ++ toString p.1 ++ ".set(pass);")))
        ++ write_indented 4 "\x7d" ∧
    pipeline_layout_fn_str data =
      "pub fn create_pipeline_layout(device: &wgpu::Device) -> wgpu::PipelineLayout \x7b\n    device.create_pipeline_layout(&wgpu::PipelineLayoutDescriptor \x7b\n        label: None,\n        bind_group_layouts: &[\n            "
        ++ String.intercalate "\n            " (data.map (fun p =>
            "&bind_groups::BindGroup" ++ toString p.1 ++ "::get_bind_group_layout(device),"))
        ++ "\n        ],\n        push_constant_ranges: &[],\n    \x7d)\n\x7d\n" := by
  refine ⟨?_, ?_, rfl, rfl⟩
  · rw [get_bind_group_data_ok h]
    exact buildGroups_sorted m.globals
  · simp [write_bind_groups_module, hc]

/-- C6 witness: the two-group shader's validated map is strictly
ascending. -/
theorem c6_witness : (wData6.map Prod.fst).Pairwise (· < ·) :=
  (c6_ascending_group_order wM6 wData6 wChunks6 rfl rfl).1

/-- C7: for every vertex-input struct whose fields all map to vertex
formats, the emitted block's `SIZE_IN_BYTES` constant is the unpadded sum
of the members' vertex-format byte sizes in member order, and the
2/3/4-component 32-bit formats contribute 8/12/16 bytes respectively. -/
theorem c7_size_in_bytes (input : VertexInput) (formats : List VertexFormat)
    (h : mapMOpt (fun p => vertex_format p.2) input.fields = some formats) :
    write_vertex_input_struct input = some
      (write_indented 4
        ("impl super::" ++ input.name
          ++ " \x7b\n    pub const VERTEX_ATTRIBUTES: [wgpu::VertexAttribute; "
          ++ toString input.fields.length ++ "] = wgpu::vertex_attr_array!["
          ++ String.intercalate ", " ((input.fields.zip formats).map
              (fun q => toString q.1.1 ++ " => " ++ q.2.debugStr))
          ++ "];\n    /// The total size in bytes of all fields without considering padding or alignment.\n    pub const SIZE_IN_BYTES: u64 = "
          ++ toString ((formats.map VertexFormat.size).sum) ++ ";\n\x7d")) ∧
    VertexFormat.size .float32x2 = 8 ∧ VertexFormat.size .float32x3 = 12 ∧
    VertexFormat.size .float32x4 = 16 ∧ VertexFormat.size .uint32x2 = 8 ∧
    VertexFormat.size .uint32x3 = 12 ∧ VertexFormat.size .uint32x4 = 16 := by
  refine ⟨?_, rfl, rfl, rfl, rfl, rfl, rfl⟩
  simp [write_vertex_input_struct, h]

/-- C7 witness: a `vec4<f32>` plus `vec2<f32>` vertex input emits
`SIZE_IN_BYTES: u64 = 24` (16 + 8, unpadded). -/
theorem c7_witness :
    write_vertex_input_struct wVI7 = some
      "    impl super::VertexInput0 \x7b\n        pub const VERTEX_ATTRIBUTES: [wgpu::VertexAttribute; 2] = wgpu::vertex_attr_array![0 => Float32x4, 1 => Float32x2];\n        /// The total size in bytes of all fields without considering padding or alignment.\n        pub const SIZE_IN_BYTES: u64 = 24;\n    \x7d\n" := by
  have h := (c7_size_in_bytes wVI7 [.float32x4, .float32x2] rfl).1
  rw [h]
  decide

/-- C8: the emitted stage-visibility flag is always one of vertex-only,
fragment-only, vertex+fragment or compute-only (never a mix of compute and
render flags), and the generated bind helpers take a compute pass exactly
when the module's stage set is exactly compute, otherwise a render
pass. -/
theorem c8_stage_visibility (st : ShaderStages) :
    (∀ s, visibilityStr st = some s →
      s = "wgpu::ShaderStages::VERTEX" ∨ s = "wgpu::ShaderStages::FRAGMENT" ∨
      s = "wgpu::ShaderStages::VERTEX_FRAGMENT" ∨ s = "wgpu::ShaderStages::COMPUTE") ∧
    (visibilityStr st = some "wgpu::ShaderStages::COMPUTE" ↔ st = stagesCompute) ∧
    (moduleIsCompute st = true ↔ st = stagesCompute) ∧
    (passTypeStr (moduleIsCompute st) = "wgpu::ComputePass<\x27a>" ↔ st = stagesCompute) ∧
    (passTypeStr (moduleIsCompute st) = "wgpu::RenderPass<\x27a>" ↔ ¬st = stagesCompute) := by
  obtain ⟨v, f, c⟩ := st
  cases v <;> cases f <;> cases c <;>
    refine ⟨?_, ?_, ?_, ?_, ?_⟩ <;>
    simp [visibilityStr, moduleIsCompute, passTypeStr, stagesVertex, stagesFragment,
      stagesVertexFragment, stagesCompute]

/-- C8 witness: for the compute-only stage set, the emitted visibility is
among the four supported flags and the pass type is a compute pass. -/
theorem c8_witness :
    ("wgpu::ShaderStages::COMPUTE" = "wgpu::ShaderStages::VERTEX" ∨
     "wgpu::ShaderStages::COMPUTE" = "wgpu::ShaderStages::FRAGMENT" ∨
     "wgpu::ShaderStages::COMPUTE" = "wgpu::ShaderStages::VERTEX_FRAGMENT" ∨
     "wgpu::ShaderStages::COMPUTE" = "wgpu::ShaderStages::COMPUTE") ∧
    passTypeStr (moduleIsCompute stagesCompute) = "wgpu::ComputePass<\x27a>" :=
  ⟨(c8_stage_visibility stagesCompute).1 "wgpu::ShaderStages::COMPUTE" rfl,
   (c8_stage_visibility stagesCompute).2.2.2.1.mpr rfl⟩

/-- C9: a supported WGSL struct is emitted as a Rust struct whose header
carries `#[repr(C)]` and the bytemuck `Pod`/`Zeroable` derives and whose
member lines follow declaration order; 32-bit scalars map to the
corresponding Rust scalar, width-2/3/4 vectors to fixed-size arrays of
that scalar and width, the 4x4 f32 matrix to `glam::Mat4` (not a raw
array), and fixed-size arrays to fixed-size Rust arrays of the mapped
element type preserving length. -/
theorem c9_struct_mapping (ind : Nat) (name : String)
    (members : List (Option String × WgslType)) (memberLines : List String)
    (h : mapMOpt (struct_member_line (ind + 4)) members = some memberLines) :
    struct_block ind (.structType (some name) members) = some
      (write_indented ind
        ("#[repr(C)]\n#[derive(Debug, Copy, Clone, PartialEq, bytemuck::Pod, bytemuck::Zeroable)]\npub struct "
          ++ name ++ " \x7b")
        ++ String.join memberLines ++ write_indented ind "\x7d") ∧
    (∀ (memberName : String) (t : WgslType) (rt : String), rust_type t = some rt →
      struct_member_line (ind + 4) (some memberName, t) =
        some (write_indented (ind + 4) ("pub " ++ memberName ++ ": " ++ rt ++ ","))) ∧
    rust_type (.scalar ⟨.float, 4⟩) = some "f32" ∧
    rust_type (.scalar ⟨.sint, 4⟩) = some "i32" ∧
    rust_type (.scalar ⟨.uint, 4⟩) = some "u32" ∧
    (∀ (n : Nat) (s : Scalar) (e : String), rustScalar s = some e → 2 ≤ n → n ≤ 4 →
      rust_type (.vector n s) = some ("[" ++ e ++ "; " ++ toString n ++ "]")) ∧
    rust_type (.matrix 4 4 ⟨.float, 4⟩) = some "glam::Mat4" ∧
    (∀ (t : WgslType) (len : Nat) (e : String), rust_type t = some e →
      rust_type (.array t len) = some ("[" ++ e ++ "; " ++ toString len ++ "]")) := by
  refine ⟨?_, ?_, rfl, rfl, rfl, ?_, by decide, ?_⟩
  · simp [struct_block, h]
  · intro memberName t rt hrt
    simp [struct_member_line, hrt]
  · intro n s e he h2 h4
    simp [rust_type, he, h2, h4]
  · intro t len e he
    simp [rust_type, he]

/-- C9 witness: a struct with a `vec2<f32>` and a `mat4x4<f32>` member is
emitted with the `#[repr(C)]`/bytemuck header, `[f32; 2]` and
`glam::Mat4` fields, in declaration order. -/
theorem c9_witness :
    struct_block 0 (.structType (some "Transforms") wMembers9) = some
      "#[repr(C)]\n#[derive(Debug, Copy, Clone, PartialEq, bytemuck::Pod, bytemuck::Zeroable)]\npub struct Transforms \x7b\n    pub a: [f32; 2],\n    pub b: glam::Mat4,\n\x7d\n" := by
  have h := (c9_struct_mapping 0 "Transforms" wMembers9 wLines9 rfl).1
  rw [h]
  decide

/-- C10: a parse failure makes `create_shader_module` panic (the parse
result is unwrapped), and the public error type can only represent the two
structural validation failures, so a parse failure can never appear as a
structured error value. -/
theorem c10_parse_failure_panics :
    (∀ path, create_shader_module none path = GenResult.panic) ∧
    (∀ e : CreateModuleError,
      e = .NonConsecutiveBindGroups ∨ ∃ b, e = .DuplicateBinding b) := by
  refine ⟨fun path => rfl, fun e => ?_⟩
  cases e with
  | NonConsecutiveBindGroups => exact Or.inl rfl
  | DuplicateBinding b => exact Or.inr ⟨b, rfl⟩

end WgslToWgpu
